import Mathlib

/-
Shallow embedding of the entity-access layer of the book-summary-generator
repository (src/src/actions/index.ts).  The persistence layer is modelled as
an explicit state `DB` holding the three tables declared in the astro:db
schema (Books, BookSections, SectionSummaries); each action handler becomes a
function from the request context, the parsed input, any nondeterministic
inputs the runtime supplies (fresh UUID, current time) and the current `DB`
to `Except ActionCode` of its result together with the successor state.
Zod input validation runs before the handler, exactly as in the framework.
-/

namespace BookSummary

/-- The authenticated user carried in `context.locals.user`. -/
structure User where
  id : String
  deriving DecidableEq, Repr

/-- A row of the `Books` table (db/config.ts schema). -/
structure Book where
  id : String
  userId : String
  title : String
  author : Option String
  sourceType : Option String
  sourceUrl : Option String
  language : Option String
  notes : Option String
  createdAt : Nat
  updatedAt : Nat
  deriving DecidableEq, Repr

/-- A row of the `BookSections` table.  Note: the schema has no `updatedAt`
column for sections. -/
structure BookSection where
  id : String
  bookId : String
  sectionType : Option String
  orderIndex : Option Int
  title : Option String
  rawText : String
  createdAt : Nat
  deriving DecidableEq, Repr

/-- A row of the `SectionSummaries` table. -/
structure SectionSummary where
  id : String
  sectionId : String
  variant : Option String
  language : Option String
  summaryText : String
  createdAt : Nat
  deriving DecidableEq, Repr

/-- The persistent store: the three tables. -/
structure DB where
  books : List Book
  sections : List BookSection
  summaries : List SectionSummary
  deriving DecidableEq, Repr

/-- The `ActionError` codes the source throws, plus the failure produced by
zod input validation rejecting the input before the handler runs. -/
inductive ActionCode where
  | unauthorized
  | notFound
  | validation
  deriving DecidableEq, Repr

/-- The request context: `context.locals.user`, possibly absent. -/
abbrev Ctx := Option User

/-- `requireUser` (index.ts lines 12-24): throws UNAUTHORIZED when no user is
present in the context. -/
def requireUser (ctx : Ctx) : Except ActionCode User :=
  match ctx with
  | none => .error .unauthorized
  | some u => .ok u

/-- `getOwnedBook` (index.ts lines 26-40): a single select filtered jointly
by book id and user id; NOT_FOUND when no row matches. -/
def getOwnedBook (bookId userId : String) (db : DB) : Except ActionCode Book :=
  match db.books.find? (fun b => b.id == bookId && b.userId == userId) with
  | none => .error .notFound
  | some b => .ok b

/-- `getOwnedSection` (index.ts lines 42-58): first `getOwnedBook`, then a
select on sections filtered jointly by section id and book id. -/
def getOwnedSection (sectionId bookId userId : String) (db : DB) :
    Except ActionCode BookSection :=
  match getOwnedBook bookId userId db with
  | .error e => .error e
  | .ok _ =>
    match db.sections.find? (fun s => s.id == sectionId && s.bookId == bookId) with
    | none => .error .notFound
    | some s => .ok s

/-- Input of `createBook`; the zod schema requires `title` non-empty. -/
structure CreateBookInput where
  title : String
  author : Option String
  sourceType : Option String
  sourceUrl : Option String
  language : Option String
  notes : Option String
  deriving DecidableEq, Repr

def CreateBookInput.valid (i : CreateBookInput) : Bool :=
  i.title != ""

/-- Input of `updateBook`; the zod schema requires `id` non-empty, `title`
(when supplied) non-empty, and — via `.refine` — at least one optional field
supplied. -/
structure UpdateBookInput where
  id : String
  title : Option String
  author : Option String
  sourceType : Option String
  sourceUrl : Option String
  language : Option String
  notes : Option String
  deriving DecidableEq, Repr

def UpdateBookInput.valid (i : UpdateBookInput) : Bool :=
  i.id != "" &&
  (match i.title with
   | some t => t != ""
   | none => true) &&
  (i.title.isSome || i.author.isSome || i.sourceType.isSome ||
   i.sourceUrl.isSome || i.language.isSome || i.notes.isSome)

/-- Input of `createBookSection`; zod requires `bookId` and `rawText`
non-empty; `orderIndex` is an optional integer. -/
structure CreateSectionInput where
  bookId : String
  sectionType : Option String
  orderIndex : Option Int
  title : Option String
  rawText : String
  deriving DecidableEq, Repr

def CreateSectionInput.valid (i : CreateSectionInput) : Bool :=
  i.bookId != "" && i.rawText != ""

/-- Input of `updateBookSection`; zod requires `id` and `bookId` non-empty
and — via `.refine` — at least one optional field supplied.  The schema puts
no non-emptiness constraint on the optional `rawText`. -/
structure UpdateSectionInput where
  id : String
  bookId : String
  sectionType : Option String
  orderIndex : Option Int
  title : Option String
  rawText : Option String
  deriving DecidableEq, Repr

def UpdateSectionInput.valid (i : UpdateSectionInput) : Bool :=
  i.id != "" && i.bookId != "" &&
  (i.sectionType.isSome || i.orderIndex.isSome || i.title.isSome ||
   i.rawText.isSome)

/-- Input of `deleteBookSection`. -/
structure DeleteSectionInput where
  id : String
  bookId : String
  deriving DecidableEq, Repr

def DeleteSectionInput.valid (i : DeleteSectionInput) : Bool :=
  i.id != "" && i.bookId != ""

/-- Input of `listBookSections`. -/
structure ListSectionsInput where
  bookId : String
  deriving DecidableEq, Repr

def ListSectionsInput.valid (i : ListSectionsInput) : Bool :=
  i.bookId != ""

/-- Input of `createSectionSummary`; zod requires `sectionId`, `bookId` and
`summaryText` non-empty. -/
structure CreateSummaryInput where
  sectionId : String
  bookId : String
  variant : Option String
  language : Option String
  summaryText : String
  deriving DecidableEq, Repr

def CreateSummaryInput.valid (i : CreateSummaryInput) : Bool :=
  i.sectionId != "" && i.bookId != "" && i.summaryText != ""

/-- Input of `listSectionSummaries`. -/
structure ListSummariesInput where
  sectionId : String
  bookId : String
  deriving DecidableEq, Repr

def ListSummariesInput.valid (i : ListSummariesInput) : Bool :=
  i.sectionId != "" && i.bookId != ""

/-- `createBook` handler (index.ts lines 61-95).  `freshId` stands for
`crypto.randomUUID()` and `now` for the single `new Date()` captured once and
used for both `createdAt` and `updatedAt`. -/
def createBook (ctx : Ctx) (input : CreateBookInput) (freshId : String)
    (now : Nat) (db : DB) : Except ActionCode (Book × DB) :=
  if input.valid then
    match requireUser ctx with
    | .error e => .error e
    | .ok user =>
      let book : Book :=
        { id := freshId
          userId := user.id
          title := input.title
          author := input.author
          sourceType := input.sourceType
          sourceUrl := input.sourceUrl
          language := input.language
          notes := input.notes
          createdAt := now
          updatedAt := now }
      .ok (book, { db with books := db.books ++ [book] })
  else .error .validation

/-- The `.set({...})` object of `updateBook` (index.ts lines 124-132): each
optional field is spread in only when supplied; `updatedAt` is always set. -/
def applyBookUpdate (input : UpdateBookInput) (now : Nat) (b : Book) : Book :=
  { b with
    title := input.title.getD b.title
    author := match input.author with
              | some a => some a
              | none => b.author
    sourceType := match input.sourceType with
                  | some s => some s
                  | none => b.sourceType
    sourceUrl := match input.sourceUrl with
                 | some s => some s
                 | none => b.sourceUrl
    language := match input.language with
                | some s => some s
                | none => b.language
    notes := match input.notes with
             | some s => some s
             | none => b.notes
    updatedAt := now }

/-- `updateBook` handler (index.ts lines 97-141): after ownership check, an
UPDATE filtered only by `Books.id`, returning the first updated row. -/
def updateBook (ctx : Ctx) (input : UpdateBookInput) (now : Nat) (db : DB) :
    Except ActionCode (Option Book × DB) :=
  if input.valid then
    match requireUser ctx with
    | .error e => .error e
    | .ok user =>
      match getOwnedBook input.id user.id db with
      | .error e => .error e
      | .ok _ =>
        let newBooks := db.books.map
          (fun b => if b.id == input.id then applyBookUpdate input now b else b)
        .ok (newBooks.find? (fun b => b.id == input.id),
             { db with books := newBooks })
  else .error .validation

/-- `listBooks` handler (index.ts lines 143-158): all books of the user,
with `total` the length of the returned list. -/
def listBooks (ctx : Ctx) (db : DB) : Except ActionCode (List Book × Nat) :=
  match requireUser ctx with
  | .error e => .error e
  | .ok user =>
    let items := db.books.filter (fun b => b.userId == user.id)
    .ok (items, items.length)

/-- `createBookSection` handler (index.ts lines 160-190).  `orderIndex`
defaults to 1 via `input.orderIndex ?? 1`. -/
def createBookSection (ctx : Ctx) (input : CreateSectionInput)
    (freshId : String) (now : Nat) (db : DB) :
    Except ActionCode (BookSection × DB) :=
  if input.valid then
    match requireUser ctx with
    | .error e => .error e
    | .ok user =>
      match getOwnedBook input.bookId user.id db with
      | .error e => .error e
      | .ok _ =>
        let s : BookSection :=
          { id := freshId
            bookId := input.bookId
            sectionType := input.sectionType
            orderIndex := some (input.orderIndex.getD 1)
            title := input.title
            rawText := input.rawText
            createdAt := now }
        .ok (s, { db with sections := db.sections ++ [s] })
  else .error .validation

/-- The `.set({...})` object of `updateBookSection` (index.ts lines 216-221):
each optional field is spread in only when supplied; no timestamp is set. -/
def applySectionUpdate (input : UpdateSectionInput) (s : BookSection) :
    BookSection :=
  { s with
    sectionType := match input.sectionType with
                   | some v => some v
                   | none => s.sectionType
    orderIndex := match input.orderIndex with
                  | some v => some v
                  | none => s.orderIndex
    title := match input.title with
             | some v => some v
             | none => s.title
    rawText := input.rawText.getD s.rawText }

/-- `updateBookSection` handler (index.ts lines 192-230): ownership via the
two-step chain, then an UPDATE filtered only by `BookSections.id`. -/
def updateBookSection (ctx : Ctx) (input : UpdateSectionInput) (db : DB) :
    Except ActionCode (Option BookSection × DB) :=
  if input.valid then
    match requireUser ctx with
    | .error e => .error e
    | .ok user =>
      match getOwnedSection input.id input.bookId user.id db with
      | .error e => .error e
      | .ok _ =>
        let newSections := db.sections.map
          (fun s => if s.id == input.id then applySectionUpdate input s else s)
        .ok (newSections.find? (fun s => s.id == input.id),
             { db with sections := newSections })
  else .error .validation

/-- `deleteBookSection` handler (index.ts lines 232-251): deletes the section
row, then deletes every summary row whose `sectionId` matches. -/
def deleteBookSection (ctx : Ctx) (input : DeleteSectionInput) (db : DB) :
    Except ActionCode DB :=
  if input.valid then
    match requireUser ctx with
    | .error e => .error e
    | .ok user =>
      match getOwnedSection input.id input.bookId user.id db with
      | .error e => .error e
      | .ok _ =>
        .ok { db with
              sections := db.sections.filter (fun s => !(s.id == input.id))
              summaries :=
                db.summaries.filter (fun m => !(m.sectionId == input.id)) }
  else .error .validation

/-- `listBookSections` handler (index.ts lines 253-271). -/
def listBookSections (ctx : Ctx) (input : ListSectionsInput) (db : DB) :
    Except ActionCode (List BookSection × Nat) :=
  if input.valid then
    match requireUser ctx with
    | .error e => .error e
    | .ok user =>
      match getOwnedBook input.bookId user.id db with
      | .error e => .error e
      | .ok _ =>
        let items := db.sections.filter (fun s => s.bookId == input.bookId)
        .ok (items, items.length)
  else .error .validation

/-- `createSectionSummary` handler (index.ts lines 273-302). -/
def createSectionSummary (ctx : Ctx) (input : CreateSummaryInput)
    (freshId : String) (now : Nat) (db : DB) :
    Except ActionCode (SectionSummary × DB) :=
  if input.valid then
    match requireUser ctx with
    | .error e => .error e
    | .ok user =>
      match getOwnedSection input.sectionId input.bookId user.id db with
      | .error e => .error e
      | .ok _ =>
        let m : SectionSummary :=
          { id := freshId
            sectionId := input.sectionId
            variant := input.variant
            language := input.language
            summaryText := input.summaryText
            createdAt := now }
        .ok (m, { db with summaries := db.summaries ++ [m] })
  else .error .validation

/-- `listSectionSummaries` handler (index.ts lines 304-323). -/
def listSectionSummaries (ctx : Ctx) (input : ListSummariesInput) (db : DB) :
    Except ActionCode (List SectionSummary × Nat) :=
  if input.valid then
    match requireUser ctx with
    | .error e => .error e
    | .ok user =>
      match getOwnedSection input.sectionId input.bookId user.id db with
      | .error e => .error e
      | .ok _ =>
        let items :=
          db.summaries.filter (fun m => m.sectionId == input.sectionId)
        .ok (items, items.length)
  else .error .validation

/-- When every book carrying the requested id belongs to a different user,
the joint `(id, userId)` lookup of `getOwnedBook` finds nothing and the
verifier fails with NOT_FOUND. -/
theorem getOwnedBook_not_owned (bookId userId : String) (db : DB)
    (h : ∀ b ∈ db.books, b.id = bookId → b.userId ≠ userId) :
    getOwnedBook bookId userId db = .error .notFound := by
  unfold getOwnedBook
  have hfind : db.books.find?
      (fun b => b.id == bookId && b.userId == userId) = none := by
    apply List.find?_eq_none.mpr
    intro b hb
    simp only [Bool.and_eq_true, beq_iff_eq, not_and]
    intro hid
    exact h b hb hid
  rw [hfind]

/-- The section-level verifier inherits the NOT_FOUND of the book-level
verifier when the book is not owned by the requester. -/
theorem getOwnedSection_not_owned (sectionId bookId userId : String) (db : DB)
    (h : ∀ b ∈ db.books, b.id = bookId → b.userId ≠ userId) :
    getOwnedSection sectionId bookId userId db = .error .notFound := by
  unfold getOwnedSection
  rw [getOwnedBook_not_owned bookId userId db h]

/-- `find?` returns exactly the unique element satisfying the predicate. -/
theorem find?_eq_of_uniq {α : Type} (l : List α) (p : α → Bool) (b : α)
    (hb : b ∈ l) (hpb : p b = true)
    (huniq : ∀ c ∈ l, p c = true → c = b) :
    l.find? p = some b := by
  induction l with
  | nil => cases hb
  | cons x xs ih =>
    by_cases hx : p x = true
    · have hxb : x = b := huniq x (List.mem_cons_self x xs) hx
      rw [List.find?_cons_of_pos _ hx, hxb]
    · rw [List.find?_cons_of_neg _ (by simpa using hx)]
      have hbxs : b ∈ xs := by
        rcases List.mem_cons.mp hb with h1 | h1
        · exact absurd (h1 ▸ hpb) hx
        · exact h1
      exact ih hbxs (fun c hc hpc => huniq c (List.mem_cons_of_mem x hc) hpc)

/-- Applying a per-row transform to exactly the rows matching a predicate
(as the SQL UPDATE filtered by id does), when the matching row is unique and
the transform preserves the predicate, the first match afterwards is the
transformed row. -/
theorem find?_map_ite {α : Type} (l : List α) (p : α → Bool) (f : α → α)
    (hf : ∀ c, p c = true → p (f c) = true) (b : α) (hb : b ∈ l)
    (hpb : p b = true) (huniq : ∀ c ∈ l, p c = true → c = b) :
    (l.map (fun c => if p c then f c else c)).find? p = some (f b) := by
  induction l with
  | nil => cases hb
  | cons x xs ih =>
    simp only [List.map_cons]
    by_cases hx : p x = true
    · have hxb : x = b := huniq x (List.mem_cons_self x xs) hx
      rw [if_pos hx, List.find?_cons_of_pos _ (hf x hx), hxb]
    · have hbxs : b ∈ xs := by
        rcases List.mem_cons.mp hb with h1 | h1
        · exact absurd (h1 ▸ hpb) hx
        · exact h1
      rw [if_neg hx, List.find?_cons_of_neg _ (by simpa using hx)]
      exact ih hbxs (fun c hc hpc => huniq c (List.mem_cons_of_mem x hc) hpc)

/-- Rows left untouched by the filtered UPDATE stay in the table. -/
theorem mem_map_ite_of_neg {α : Type} (l : List α) (p : α → Bool) (f : α → α)
    (c : α) (hc : c ∈ l) (hpc : p c = false) :
    c ∈ l.map (fun x => if p x then f x else x) := by
  refine List.mem_map.mpr ⟨c, hc, ?_⟩
  rw [hpc]
  simp

/-- Sample user owning the sample data. -/
def uAlice : User := { id := "alice" }

/-- Sample user who owns nothing in the sample data. -/
def uBob : User := { id := "bob" }

def bk1 : Book :=
  { id := "b1", userId := "alice", title := "Moby Dick", author := none
    sourceType := none, sourceUrl := none, language := none, notes := none
    createdAt := 0, updatedAt := 0 }

def sec1 : BookSection :=
  { id := "s1", bookId := "b1", sectionType := none, orderIndex := some 1
    title := none, rawText := "Call me Ishmael", createdAt := 1 }

def sum1 : SectionSummary :=
  { id := "m1", sectionId := "s1", variant := some "short", language := none
    summaryText := "A tale", createdAt := 2 }

def db1 : DB := { books := [bk1], sections := [sec1], summaries := [sum1] }

/-- C1: for every Section or Summary operation (createBookSection,
updateBookSection, deleteBookSection, listBookSections, createSectionSummary,
listSectionSummaries), if every book carrying the referenced bookId belongs
to a user other than the requester, the operation fails with NOT_FOUND; the
error result carries no successor state, so no mutation is performed. -/
theorem C1_not_owner_notFound :
    (∀ (user : User) (input : CreateSectionInput) (freshId : String)
       (now : Nat) (db : DB), input.valid = true →
       (∀ b ∈ db.books, b.id = input.bookId → b.userId ≠ user.id) →
       createBookSection (some user) input freshId now db =
         .error .notFound) ∧
    (∀ (user : User) (input : UpdateSectionInput) (db : DB),
       input.valid = true →
       (∀ b ∈ db.books, b.id = input.bookId → b.userId ≠ user.id) →
       updateBookSection (some user) input db = .error .notFound) ∧
    (∀ (user : User) (input : DeleteSectionInput) (db : DB),
       input.valid = true →
       (∀ b ∈ db.books, b.id = input.bookId → b.userId ≠ user.id) →
       deleteBookSection (some user) input db = .error .notFound) ∧
    (∀ (user : User) (input : ListSectionsInput) (db : DB),
       input.valid = true →
       (∀ b ∈ db.books, b.id = input.bookId → b.userId ≠ user.id) →
       listBookSections (some user) input db = .error .notFound) ∧
    (∀ (user : User) (input : CreateSummaryInput) (freshId : String)
       (now : Nat) (db : DB), input.valid = true →
       (∀ b ∈ db.books, b.id = input.bookId → b.userId ≠ user.id) →
       createSectionSummary (some user) input freshId now db =
         .error .notFound) ∧
    (∀ (user : User) (input : ListSummariesInput) (db : DB),
       input.valid = true →
       (∀ b ∈ db.books, b.id = input.bookId → b.userId ≠ user.id) →
       listSectionSummaries (some user) input db = .error .notFound) := by
  refine ⟨?_, ?_, ?_, ?_, ?_, ?_⟩
  · intro user input freshId now db hv h
    simp [createBookSection, hv, requireUser, getOwnedBook_not_owned _ _ _ h]
  · intro user input db hv h
    simp [updateBookSection, hv, requireUser,
      getOwnedSection_not_owned _ _ _ _ h]
  · intro user input db hv h
    simp [deleteBookSection, hv, requireUser,
      getOwnedSection_not_owned _ _ _ _ h]
  · intro user input db hv h
    simp [listBookSections, hv, requireUser, getOwnedBook_not_owned _ _ _ h]
  · intro user input freshId now db hv h
    simp [createSectionSummary, hv, requireUser,
      getOwnedSection_not_owned _ _ _ _ h]
  · intro user input db hv h
    simp [listSectionSummaries, hv, requireUser,
      getOwnedSection_not_owned _ _ _ _ h]

/-- C1 witness: Bob attempts to create a section under Alice's book and gets
NOT_FOUND. -/
theorem C1_not_owner_notFound_witness :
    createBookSection (some uBob)
      { bookId := "b1", sectionType := none, orderIndex := none,
        title := none, rawText := "x" } "s9" 5 db1 = .error .notFound :=
  C1_not_owner_notFound.1 uBob
    { bookId := "b1", sectionType := none, orderIndex := none,
      title := none, rawText := "x" } "s9" 5 db1 (by decide) (by decide)

/-- C6: with no authenticated identity in the context, every one of the
operations fails with UNAUTHORIZED; the result is the same for every store
state `db` (so no read influences it) and carries no successor state (so no
write happens).  The spec speaks of ten operations; the operation set of the
source has these nine members. -/
theorem C6_unauthenticated_unauthorized :
    (∀ (input : CreateBookInput) (freshId : String) (now : Nat) (db : DB),
       input.valid = true →
       createBook none input freshId now db = .error .unauthorized) ∧
    (∀ (input : UpdateBookInput) (now : Nat) (db : DB),
       input.valid = true →
       updateBook none input now db = .error .unauthorized) ∧
    (∀ (db : DB), listBooks none db = .error .unauthorized) ∧
    (∀ (input : CreateSectionInput) (freshId : String) (now : Nat) (db : DB),
       input.valid = true →
       createBookSection none input freshId now db = .error .unauthorized) ∧
    (∀ (input : UpdateSectionInput) (db : DB),
       input.valid = true →
       updateBookSection none input db = .error .unauthorized) ∧
    (∀ (input : DeleteSectionInput) (db : DB),
       input.valid = true →
       deleteBookSection none input db = .error .unauthorized) ∧
    (∀ (input : ListSectionsInput) (db : DB),
       input.valid = true →
       listBookSections none input db = .error .unauthorized) ∧
    (∀ (input : CreateSummaryInput) (freshId : String) (now : Nat) (db : DB),
       input.valid = true →
       createSectionSummary none input freshId now db =
         .error .unauthorized) ∧
    (∀ (input : ListSummariesInput) (db : DB),
       input.valid = true →
       listSectionSummaries none input db = .error .unauthorized) := by
  refine ⟨?_, ?_, ?_, ?_, ?_, ?_, ?_, ?_, ?_⟩
  · intro input freshId now db hv
    simp [createBook, hv, requireUser]
  · intro input now db hv
    simp [updateBook, hv, requireUser]
  · intro db
    simp [listBooks, requireUser]
  · intro input freshId now db hv
    simp [createBookSection, hv, requireUser]
  · intro input db hv
    simp [updateBookSection, hv, requireUser]
  · intro input db hv
    simp [deleteBookSection, hv, requireUser]
  · intro input db hv
    simp [listBookSections, hv, requireUser]
  · intro input freshId now db hv
    simp [createSectionSummary, hv, requireUser]
  · intro input db hv
    simp [listSectionSummaries, hv, requireUser]

/-- C6 witness: an unauthenticated createBook with a valid input fails
UNAUTHORIZED. -/
theorem C6_unauthenticated_unauthorized_witness :
    createBook none
      { title := "Moby Dick", author := none, sourceType := none,
        sourceUrl := none, language := none, notes := none } "b9" 7 db1 =
      .error .unauthorized :=
  C6_unauthenticated_unauthorized.1
    { title := "Moby Dick", author := none, sourceType := none,
      sourceUrl := none, language := none, notes := none } "b9" 7 db1
    (by decide)

/-- C4: an updateBook or updateBookSection call supplying none of the
optional update fields fails the zod refine check with a VALIDATION failure,
for every context and every store state; validation runs before the handler,
so no persistence read or write occurs (the result is a constant error,
independent of `db`, and carries no successor state). -/
theorem C4_no_fields_validation :
    (∀ (ctx : Ctx) (input : UpdateBookInput) (now : Nat) (db : DB),
       input.title = none → input.author = none → input.sourceType = none →
       input.sourceUrl = none → input.language = none → input.notes = none →
       updateBook ctx input now db = .error .validation) ∧
    (∀ (ctx : Ctx) (input : UpdateSectionInput) (db : DB),
       input.sectionType = none → input.orderIndex = none →
       input.title = none → input.rawText = none →
       updateBookSection ctx input db = .error .validation) := by
  constructor
  · intro ctx input now db h1 h2 h3 h4 h5 h6
    simp [updateBook, UpdateBookInput.valid, h1, h2, h3, h4, h5, h6]
  · intro ctx input db h1 h2 h3 h4
    simp [updateBookSection, UpdateSectionInput.valid, h1, h2, h3, h4]

/-- C4 witness: updateBook with only the id set fails VALIDATION even for an
authenticated owner of an existing book. -/
theorem C4_no_fields_validation_witness :
    updateBook (some uAlice)
      { id := "b1", title := none, author := none, sourceType := none,
        sourceUrl := none, language := none, notes := none } 9 db1 =
      .error .validation :=
  C4_no_fields_validation.1 (some uAlice)
    { id := "b1", title := none, author := none, sourceType := none,
      sourceUrl := none, language := none, notes := none } 9 db1
    rfl rfl rfl rfl rfl rfl

/-- C10: a successful createBook captures one timestamp `now` and stores it
in both createdAt and updatedAt, so the returned book has
createdAt = updatedAt. -/
theorem C10_createBook_timestamps :
    ∀ (user : User) (input : CreateBookInput) (freshId : String) (now : Nat)
      (db : DB), input.valid = true →
      ∃ (b : Book) (db' : DB),
        createBook (some user) input freshId now db = .ok (b, db') ∧
        b.createdAt = b.updatedAt ∧ b.createdAt = now ∧ b.updatedAt = now ∧
        db'.books = db.books ++ [b] := by
  intro user input freshId now db hv
  refine ⟨{ id := freshId, userId := user.id, title := input.title,
            author := input.author, sourceType := input.sourceType,
            sourceUrl := input.sourceUrl, language := input.language,
            notes := input.notes, createdAt := now, updatedAt := now },
          { db with books := db.books ++
              [{ id := freshId, userId := user.id, title := input.title,
                 author := input.author, sourceType := input.sourceType,
                 sourceUrl := input.sourceUrl, language := input.language,
                 notes := input.notes, createdAt := now,
                 updatedAt := now }] },
          ?_, rfl, rfl, rfl, rfl⟩
  simp [createBook, hv, requireUser]

/-- C10 witness: a concrete successful createBook whose returned row has
equal timestamps. -/
theorem C10_createBook_timestamps_witness :
    ∃ (b : Book) (db' : DB),
      createBook (some uAlice)
        { title := "Walden", author := none, sourceType := none,
          sourceUrl := none, language := none, notes := none } "b2" 4 db1 =
        .ok (b, db') ∧
      b.createdAt = b.updatedAt ∧ b.createdAt = 4 ∧ b.updatedAt = 4 ∧
      db'.books = db1.books ++ [b] :=
  C10_createBook_timestamps uAlice
    { title := "Walden", author := none, sourceType := none,
      sourceUrl := none, language := none, notes := none } "b2" 4 db1
    (by decide)

/-- C8: a successful createBookSection stores orderIndex 1 when the input
omits it and exactly the supplied integer when it is supplied; the new row
is appended and no existing section is renumbered or otherwise changed. -/
theorem C8_orderIndex_default :
    ∀ (user : User) (input : CreateSectionInput) (freshId : String)
      (now : Nat) (db : DB) (bk : Book), input.valid = true →
      getOwnedBook input.bookId user.id db = .ok bk →
      ∃ (s : BookSection) (db' : DB),
        createBookSection (some user) input freshId now db = .ok (s, db') ∧
        (input.orderIndex = none → s.orderIndex = some 1) ∧
        (∀ n : Int, input.orderIndex = some n → s.orderIndex = some n) ∧
        s.rawText = input.rawText ∧
        db'.sections = db.sections ++ [s] ∧
        db'.books = db.books ∧ db'.summaries = db.summaries := by
  intro user input freshId now db bk hv hbk
  refine ⟨{ id := freshId, bookId := input.bookId,
            sectionType := input.sectionType,
            orderIndex := some (input.orderIndex.getD 1),
            title := input.title, rawText := input.rawText,
            createdAt := now },
          { db with sections := db.sections ++
              [{ id := freshId, bookId := input.bookId,
                 sectionType := input.sectionType,
                 orderIndex := some (input.orderIndex.getD 1),
                 title := input.title, rawText := input.rawText,
                 createdAt := now }] },
          ?_, ?_, ?_, rfl, rfl, rfl, rfl⟩
  · simp [createBookSection, hv, requireUser, hbk]
  · intro h
    simp [h]
  · intro n h
    simp [h]

/-- C8 witness: creating a section with orderIndex omitted yields a stored
orderIndex of 1. -/
theorem C8_orderIndex_default_witness :
    ∃ (s : BookSection) (db' : DB),
      createBookSection (some uAlice)
        { bookId := "b1", sectionType := none, orderIndex := none,
          title := none, rawText := "Chapter two" } "s2" 6 db1 =
        .ok (s, db') ∧
      ((none : Option Int) = none → s.orderIndex = some 1) ∧
      (∀ n : Int, (none : Option Int) = some n → s.orderIndex = some n) ∧
      s.rawText = "Chapter two" ∧
      db'.sections = db1.sections ++ [s] ∧
      db'.books = db1.books ∧ db'.summaries = db1.summaries :=
  C8_orderIndex_default uAlice
    { bookId := "b1", sectionType := none, orderIndex := none,
      title := none, rawText := "Chapter two" } "s2" 6 db1 bk1 (by decide)
    rfl

/-- C5: a successful deleteBookSection removes the section row and leaves no
summary row whose sectionId matches the deleted id; books are untouched,
unrelated sections and summaries survive, and nothing requires the section
to have had any summaries (N = 0 succeeds as well). -/
theorem C5_delete_cascade :
    ∀ (user : User) (input : DeleteSectionInput) (db : DB)
      (s : BookSection), input.valid = true →
      getOwnedSection input.id input.bookId user.id db = .ok s →
      ∃ db' : DB,
        deleteBookSection (some user) input db = .ok db' ∧
        (∀ t ∈ db'.sections, t.id ≠ input.id) ∧
        (∀ m ∈ db'.summaries, m.sectionId ≠ input.id) ∧
        db'.books = db.books ∧
        (∀ t ∈ db.sections, t.id ≠ input.id → t ∈ db'.sections) ∧
        (∀ m ∈ db.summaries, m.sectionId ≠ input.id → m ∈ db'.summaries) := by
  intro user input db s hv hs
  refine ⟨{ db with
            sections := db.sections.filter (fun t => !(t.id == input.id))
            summaries :=
              db.summaries.filter (fun m => !(m.sectionId == input.id)) },
          ?_, ?_, ?_, rfl, ?_, ?_⟩
  · simp [deleteBookSection, hv, requireUser, hs]
  · intro t ht
    have := (List.mem_filter.mp ht).2
    simpa using this
  · intro m hm
    have := (List.mem_filter.mp hm).2
    simpa using this
  · intro t ht hne
    exact List.mem_filter.mpr ⟨ht, by simpa using hne⟩
  · intro m hm hne
    exact List.mem_filter.mpr ⟨hm, by simpa using hne⟩

/-- C5 witness: Alice deletes her section; the section and its one summary
are gone. -/
theorem C5_delete_cascade_witness :
    ∃ db' : DB,
      deleteBookSection (some uAlice) { id := "s1", bookId := "b1" } db1 =
        .ok db' ∧
      (∀ t ∈ db'.sections, t.id ≠ "s1") ∧
      (∀ m ∈ db'.summaries, m.sectionId ≠ "s1") ∧
      db'.books = db1.books ∧
      (∀ t ∈ db1.sections, t.id ≠ "s1" → t ∈ db'.sections) ∧
      (∀ m ∈ db1.summaries, m.sectionId ≠ "s1" → m ∈ db'.summaries) :=
  C5_delete_cascade uAlice { id := "s1", bookId := "b1" } db1 sec1
    (by decide) rfl

/-- C3: a successful updateBook on the (unique) owned row with the given id
changes exactly the supplied optional fields, always refreshes updatedAt,
leaves id, userId, createdAt and every omitted field at their previous
values, returns the updated row, and touches no other book, section or
summary. -/
theorem C3_updateBook_partial_fields :
    ∀ (user : User) (input : UpdateBookInput) (now : Nat) (db : DB)
      (b : Book), input.valid = true →
      b ∈ db.books → b.id = input.id → b.userId = user.id →
      (∀ c ∈ db.books, c.id = input.id → c = b) →
      ∃ (b' : Book) (db' : DB),
        updateBook (some user) input now db = .ok (some b', db') ∧
        b'.id = b.id ∧ b'.userId = b.userId ∧ b'.createdAt = b.createdAt ∧
        b'.updatedAt = now ∧
        (input.title = none → b'.title = b.title) ∧
        (∀ v, input.title = some v → b'.title = v) ∧
        (input.author = none → b'.author = b.author) ∧
        (∀ v, input.author = some v → b'.author = some v) ∧
        (input.sourceType = none → b'.sourceType = b.sourceType) ∧
        (∀ v, input.sourceType = some v → b'.sourceType = some v) ∧
        (input.sourceUrl = none → b'.sourceUrl = b.sourceUrl) ∧
        (∀ v, input.sourceUrl = some v → b'.sourceUrl = some v) ∧
        (input.language = none → b'.language = b.language) ∧
        (∀ v, input.language = some v → b'.language = some v) ∧
        (input.notes = none → b'.notes = b.notes) ∧
        (∀ v, input.notes = some v → b'.notes = some v) ∧
        (∀ c ∈ db.books, c.id ≠ input.id → c ∈ db'.books) ∧
        db'.sections = db.sections ∧ db'.summaries = db.summaries := by
  intro user input now db b hv hmem hid huid huniq
  have hbk : getOwnedBook input.id user.id db = .ok b := by
    unfold getOwnedBook
    rw [find?_eq_of_uniq db.books _ b hmem (by simp [hid, huid])
      (fun c hc hpc => huniq c hc (by
        simp only [Bool.and_eq_true, beq_iff_eq] at hpc
        exact hpc.1))]
  have hfind := find?_map_ite db.books (fun c => c.id == input.id)
    (applyBookUpdate input now)
    (fun c hpc => by simpa [applyBookUpdate] using hpc)
    b hmem (by simp [hid])
    (fun c hc hpc => huniq c hc (by simpa using hpc))
  simp only [beq_iff_eq] at hfind
  refine ⟨applyBookUpdate input now b,
          { db with books := db.books.map (fun c =>
              if c.id == input.id then applyBookUpdate input now c else c) },
          ?_, rfl, rfl, rfl, rfl, ?_, ?_, ?_, ?_, ?_, ?_, ?_, ?_, ?_, ?_,
          ?_, ?_, ?_, rfl, rfl⟩
  · simp [updateBook, hv, requireUser, hbk, hfind, -List.find?_map]
  · intro h
    simp [applyBookUpdate, h]
  · intro v h
    simp [applyBookUpdate, h]
  · intro h
    simp [applyBookUpdate, h]
  · intro v h
    simp [applyBookUpdate, h]
  · intro h
    simp [applyBookUpdate, h]
  · intro v h
    simp [applyBookUpdate, h]
  · intro h
    simp [applyBookUpdate, h]
  · intro v h
    simp [applyBookUpdate, h]
  · intro h
    simp [applyBookUpdate, h]
  · intro v h
    simp [applyBookUpdate, h]
  · intro h
    simp [applyBookUpdate, h]
  · intro v h
    simp [applyBookUpdate, h]
  · intro c hc hne
    exact mem_map_ite_of_neg db.books _ _ c hc (by simpa using hne)

/-- The notes-only update used to witness C3. -/
def inpC3 : UpdateBookInput :=
  { id := "b1", title := none, author := none, sourceType := none,
    sourceUrl := none, language := none, notes := some "great notes" }

/-- C3 witness: updating only notes on Alice's book leaves every other field
of the row as it was and refreshes updatedAt. -/
theorem C3_updateBook_partial_fields_witness :
    ∃ (b' : Book) (db' : DB),
      updateBook (some uAlice) inpC3 9 db1 = .ok (some b', db') ∧
      b'.id = bk1.id ∧ b'.userId = bk1.userId ∧ b'.createdAt = bk1.createdAt ∧
      b'.updatedAt = 9 ∧
      (inpC3.title = none → b'.title = bk1.title) ∧
      (∀ v, inpC3.title = some v → b'.title = v) ∧
      (inpC3.author = none → b'.author = bk1.author) ∧
      (∀ v, inpC3.author = some v → b'.author = some v) ∧
      (inpC3.sourceType = none → b'.sourceType = bk1.sourceType) ∧
      (∀ v, inpC3.sourceType = some v → b'.sourceType = some v) ∧
      (inpC3.sourceUrl = none → b'.sourceUrl = bk1.sourceUrl) ∧
      (∀ v, inpC3.sourceUrl = some v → b'.sourceUrl = some v) ∧
      (inpC3.language = none → b'.language = bk1.language) ∧
      (∀ v, inpC3.language = some v → b'.language = some v) ∧
      (inpC3.notes = none → b'.notes = bk1.notes) ∧
      (∀ v, inpC3.notes = some v → b'.notes = some v) ∧
      (∀ c ∈ db1.books, c.id ≠ inpC3.id → c ∈ db'.books) ∧
      db'.sections = db1.sections ∧ db'.summaries = db1.summaries :=
  C3_updateBook_partial_fields uAlice inpC3 9 db1 bk1 (by decide) (by decide)
    rfl rfl (by decide)

/-- C9: a successful updateBookSection on the (unique) owned section row
keeps id, bookId and createdAt at their previous values; the `BookSections`
schema carries no updatedAt column (the embedded `BookSection` has no such
field), so no modification timestamp is or can be set; books and summaries
are untouched and sections with a different id survive unchanged. -/
theorem C9_updateSection_immutable_fields :
    ∀ (user : User) (input : UpdateSectionInput) (db : DB) (bk : Book)
      (s : BookSection), input.valid = true →
      getOwnedBook input.bookId user.id db = .ok bk →
      s ∈ db.sections → s.id = input.id → s.bookId = input.bookId →
      (∀ t ∈ db.sections, t.id = input.id → t = s) →
      ∃ (s' : BookSection) (db' : DB),
        updateBookSection (some user) input db = .ok (some s', db') ∧
        s'.id = s.id ∧ s'.bookId = s.bookId ∧ s'.createdAt = s.createdAt ∧
        (∀ t ∈ db.sections, t.id ≠ input.id → t ∈ db'.sections) ∧
        db'.books = db.books ∧ db'.summaries = db.summaries := by
  intro user input db bk s hv hbk hmem hid hsb huniq
  have hsec : getOwnedSection input.id input.bookId user.id db = .ok s := by
    unfold getOwnedSection
    rw [hbk, find?_eq_of_uniq db.sections _ s hmem (by simp [hid, hsb])
      (fun t ht hpt => huniq t ht (by
        simp only [Bool.and_eq_true, beq_iff_eq] at hpt
        exact hpt.1))]
  have hfind := find?_map_ite db.sections (fun t => t.id == input.id)
    (applySectionUpdate input)
    (fun t hpt => by simpa [applySectionUpdate] using hpt)
    s hmem (by simp [hid])
    (fun t ht hpt => huniq t ht (by simpa using hpt))
  simp only [beq_iff_eq] at hfind
  refine ⟨applySectionUpdate input s,
          { db with sections := db.sections.map (fun t =>
              if t.id == input.id then applySectionUpdate input t else t) },
          ?_, rfl, rfl, rfl, ?_, rfl, rfl⟩
  · simp [updateBookSection, hv, requireUser, hsec, hfind, -List.find?_map]
  · intro t ht hne
    exact mem_map_ite_of_neg db.sections _ _ t ht (by simpa using hne)

/-- The title-only section update used to witness C9. -/
def inpC9 : UpdateSectionInput :=
  { id := "s1", bookId := "b1", sectionType := none, orderIndex := none,
    title := some "Chapter 1", rawText := none }

/-- C9 witness: retitling Alice's section keeps its id, bookId and createdAt
and leaves books and summaries untouched. -/
theorem C9_updateSection_immutable_fields_witness :
    ∃ (s' : BookSection) (db' : DB),
      updateBookSection (some uAlice) inpC9 db1 = .ok (some s', db') ∧
      s'.id = sec1.id ∧ s'.bookId = sec1.bookId ∧
      s'.createdAt = sec1.createdAt ∧
      (∀ t ∈ db1.sections, t.id ≠ inpC9.id → t ∈ db'.sections) ∧
      db'.books = db1.books ∧ db'.summaries = db1.summaries :=
  C9_updateSection_immutable_fields uAlice inpC9 db1 bk1 sec1 (by decide)
    rfl (by decide) rfl rfl (by decide)

/-- C7: for a requester who owns no book with the referenced id, every
operation addressing that book id produces the same NOT_FOUND failure in the
run where no book with that id exists (`dba`) and in the run where such a
book exists but belongs to another user (`dbb`); the two observable results
are identical, so a non-owner cannot learn whether the book exists. -/
theorem C7_nonowner_cannot_distinguish :
    (∀ (user : User) (input : UpdateBookInput) (now : Nat) (dba dbb : DB),
       input.valid = true →
       (∀ b ∈ dba.books, b.id ≠ input.id) →
       (∀ b ∈ dbb.books, b.id = input.id → b.userId ≠ user.id) →
       updateBook (some user) input now dba = .error .notFound ∧
       updateBook (some user) input now dbb = .error .notFound ∧
       updateBook (some user) input now dba =
         updateBook (some user) input now dbb) ∧
    (∀ (user : User) (input : CreateSectionInput) (freshId : String)
       (now : Nat) (dba dbb : DB), input.valid = true →
       (∀ b ∈ dba.books, b.id ≠ input.bookId) →
       (∀ b ∈ dbb.books, b.id = input.bookId → b.userId ≠ user.id) →
       createBookSection (some user) input freshId now dba =
         .error .notFound ∧
       createBookSection (some user) input freshId now dbb =
         .error .notFound ∧
       createBookSection (some user) input freshId now dba =
         createBookSection (some user) input freshId now dbb) ∧
    (∀ (user : User) (input : UpdateSectionInput) (dba dbb : DB),
       input.valid = true →
       (∀ b ∈ dba.books, b.id ≠ input.bookId) →
       (∀ b ∈ dbb.books, b.id = input.bookId → b.userId ≠ user.id) →
       updateBookSection (some user) input dba = .error .notFound ∧
       updateBookSection (some user) input dbb = .error .notFound ∧
       updateBookSection (some user) input dba =
         updateBookSection (some user) input dbb) ∧
    (∀ (user : User) (input : DeleteSectionInput) (dba dbb : DB),
       input.valid = true →
       (∀ b ∈ dba.books, b.id ≠ input.bookId) →
       (∀ b ∈ dbb.books, b.id = input.bookId → b.userId ≠ user.id) →
       deleteBookSection (some user) input dba = .error .notFound ∧
       deleteBookSection (some user) input dbb = .error .notFound ∧
       deleteBookSection (some user) input dba =
         deleteBookSection (some user) input dbb) ∧
    (∀ (user : User) (input : ListSectionsInput) (dba dbb : DB),
       input.valid = true →
       (∀ b ∈ dba.books, b.id ≠ input.bookId) →
       (∀ b ∈ dbb.books, b.id = input.bookId → b.userId ≠ user.id) →
       listBookSections (some user) input dba = .error .notFound ∧
       listBookSections (some user) input dbb = .error .notFound ∧
       listBookSections (some user) input dba =
         listBookSections (some user) input dbb) ∧
    (∀ (user : User) (input : CreateSummaryInput) (freshId : String)
       (now : Nat) (dba dbb : DB), input.valid = true →
       (∀ b ∈ dba.books, b.id ≠ input.bookId) →
       (∀ b ∈ dbb.books, b.id = input.bookId → b.userId ≠ user.id) →
       createSectionSummary (some user) input freshId now dba =
         .error .notFound ∧
       createSectionSummary (some user) input freshId now dbb =
         .error .notFound ∧
       createSectionSummary (some user) input freshId now dba =
         createSectionSummary (some user) input freshId now dbb) ∧
    (∀ (user : User) (input : ListSummariesInput) (dba dbb : DB),
       input.valid = true →
       (∀ b ∈ dba.books, b.id ≠ input.bookId) →
       (∀ b ∈ dbb.books, b.id = input.bookId → b.userId ≠ user.id) →
       listSectionSummaries (some user) input dba = .error .notFound ∧
       listSectionSummaries (some user) input dbb = .error .notFound ∧
       listSectionSummaries (some user) input dba =
         listSectionSummaries (some user) input dbb) := by
  refine ⟨?_, ?_, ?_, ?_, ?_, ?_, ?_⟩
  · intro user input now dba dbb hv h1 h2
    have h1' : ∀ b ∈ dba.books, b.id = input.id → b.userId ≠ user.id :=
      fun b hb hbid => absurd hbid (h1 b hb)
    have e1 : updateBook (some user) input now dba = .error .notFound := by
      simp [updateBook, hv, requireUser, getOwnedBook_not_owned _ _ _ h1']
    have e2 : updateBook (some user) input now dbb = .error .notFound := by
      simp [updateBook, hv, requireUser, getOwnedBook_not_owned _ _ _ h2]
    exact ⟨e1, e2, e1.trans e2.symm⟩
  · intro user input freshId now dba dbb hv h1 h2
    have h1' : ∀ b ∈ dba.books, b.id = input.bookId → b.userId ≠ user.id :=
      fun b hb hbid => absurd hbid (h1 b hb)
    have e1 : createBookSection (some user) input freshId now dba =
        .error .notFound := by
      simp [createBookSection, hv, requireUser,
        getOwnedBook_not_owned _ _ _ h1']
    have e2 : createBookSection (some user) input freshId now dbb =
        .error .notFound := by
      simp [createBookSection, hv, requireUser,
        getOwnedBook_not_owned _ _ _ h2]
    exact ⟨e1, e2, e1.trans e2.symm⟩
  · intro user input dba dbb hv h1 h2
    have h1' : ∀ b ∈ dba.books, b.id = input.bookId → b.userId ≠ user.id :=
      fun b hb hbid => absurd hbid (h1 b hb)
    have e1 : updateBookSection (some user) input dba = .error .notFound := by
      simp [updateBookSection, hv, requireUser,
        getOwnedSection_not_owned _ _ _ _ h1']
    have e2 : updateBookSection (some user) input dbb = .error .notFound := by
      simp [updateBookSection, hv, requireUser,
        getOwnedSection_not_owned _ _ _ _ h2]
    exact ⟨e1, e2, e1.trans e2.symm⟩
  · intro user input dba dbb hv h1 h2
    have h1' : ∀ b ∈ dba.books, b.id = input.bookId → b.userId ≠ user.id :=
      fun b hb hbid => absurd hbid (h1 b hb)
    have e1 : deleteBookSection (some user) input dba = .error .notFound := by
      simp [deleteBookSection, hv, requireUser,
        getOwnedSection_not_owned _ _ _ _ h1']
    have e2 : deleteBookSection (some user) input dbb = .error .notFound := by
      simp [deleteBookSection, hv, requireUser,
        getOwnedSection_not_owned _ _ _ _ h2]
    exact ⟨e1, e2, e1.trans e2.symm⟩
  · intro user input dba dbb hv h1 h2
    have h1' : ∀ b ∈ dba.books, b.id = input.bookId → b.userId ≠ user.id :=
      fun b hb hbid => absurd hbid (h1 b hb)
    have e1 : listBookSections (some user) input dba = .error .notFound := by
      simp [listBookSections, hv, requireUser,
        getOwnedBook_not_owned _ _ _ h1']
    have e2 : listBookSections (some user) input dbb = .error .notFound := by
      simp [listBookSections, hv, requireUser,
        getOwnedBook_not_owned _ _ _ h2]
    exact ⟨e1, e2, e1.trans e2.symm⟩
  · intro user input freshId now dba dbb hv h1 h2
    have h1' : ∀ b ∈ dba.books, b.id = input.bookId → b.userId ≠ user.id :=
      fun b hb hbid => absurd hbid (h1 b hb)
    have e1 : createSectionSummary (some user) input freshId now dba =
        .error .notFound := by
      simp [createSectionSummary, hv, requireUser,
        getOwnedSection_not_owned _ _ _ _ h1']
    have e2 : createSectionSummary (some user) input freshId now dbb =
        .error .notFound := by
      simp [createSectionSummary, hv, requireUser,
        getOwnedSection_not_owned _ _ _ _ h2]
    exact ⟨e1, e2, e1.trans e2.symm⟩
  · intro user input dba dbb hv h1 h2
    have h1' : ∀ b ∈ dba.books, b.id = input.bookId → b.userId ≠ user.id :=
      fun b hb hbid => absurd hbid (h1 b hb)
    have e1 : listSectionSummaries (some user) input dba =
        .error .notFound := by
      simp [listSectionSummaries, hv, requireUser,
        getOwnedSection_not_owned _ _ _ _ h1']
    have e2 : listSectionSummaries (some user) input dbb =
        .error .notFound := by
      simp [listSectionSummaries, hv, requireUser,
        getOwnedSection_not_owned _ _ _ _ h2]
    exact ⟨e1, e2, e1.trans e2.symm⟩

/-- The empty store, used for the C7 witness. -/
def dbEmpty : DB := { books := [], sections := [], summaries := [] }

/-- C7 witness: Bob updating book b1 gets the same NOT_FOUND whether the
store is empty or holds Alice's b1. -/
theorem C7_nonowner_cannot_distinguish_witness :
    updateBook (some uBob) inpC3 9 dbEmpty = .error .notFound ∧
    updateBook (some uBob) inpC3 9 db1 = .error .notFound ∧
    updateBook (some uBob) inpC3 9 dbEmpty =
      updateBook (some uBob) inpC3 9 db1 :=
  C7_nonowner_cannot_distinguish.1 uBob inpC3 9 dbEmpty db1 (by decide)
    (by decide) (by decide)

/-- The section update that clears rawText, used to exhibit C2's failure. -/
def inpC2 : UpdateSectionInput :=
  { id := "s1", bookId := "b1", sectionType := none, orderIndex := none,
    title := none, rawText := some "" }

/-- The row sec1 becomes after the empty-rawText update. -/
def secC2bad : BookSection := { sec1 with rawText := "" }

/-- C2: the claim that every operation preserves non-empty rawText fails on
the code: the updateBookSection zod schema declares `rawText` as an optional
string with no non-emptiness bound (unlike createBookSection's), so the
owner's update supplying `rawText = ""` passes validation, succeeds, and
stores a section whose rawText is empty. -/
theorem C2_update_stores_empty_rawText :
    sec1.rawText = "Call me Ishmael" ∧
    inpC2.valid = true ∧
    updateBookSection (some uAlice) inpC2 db1 =
      .ok (some secC2bad, { db1 with sections := [secC2bad] }) ∧
    secC2bad.rawText = "" :=
  ⟨rfl, rfl, rfl, rfl⟩

end BookSummary
